import Mathlib

/-!
Verification development for the pausable data pipeline of `ohlc/candles/app.py`
(`class DataSource`, `class CandleApp`).

The pipeline code is shallowly embedded as a small-step interleaving semantics:
the controller executes the statements of `pause()` / `unpause()` one per step,
and each spawned background thread executes the statements of `DataSource.loop`
one per step.  Every atomic step corresponds to one Python statement of the
source; shared fields (`self.paused`, `self.thread`, the generator cursor, the
sink) live in a single `Config` record, while each thread keeps its local
variables (`t`, `v`) and its program counter.  `DataSource.next` is additionally
embedded as a pure state-passing function on a sequential record `DS`.
-/

namespace OhlcPipeline

/-- Python exceptions that can escape the DataSource code paths:
`ValueError` from line 83, `StopIteration` from `next()` on an exhausted
generator (lines 79, 89), `AttributeError` from `None.join()` (line 64),
and an arbitrary exception raised by a sink's `send`. -/
inductive PyErr
  | valueError
  | stopIteration
  | attributeError
  | sinkError
  deriving DecidableEq, Repr

/-- the Sink bound to the DataSource.  `CandleApp.send` (app.py lines 146-156)
wraps its whole body in try/except and logs failures, so the call always
returns to the loop; a generic sink may instead let its exception escape into
`DataSource.loop`, which has no handler around `self.sink.send(v)` (line 90).
`failOn` lists the tick values on which the sink's internal work fails. -/
inductive SinkModel
  | appSink (failOn : List Nat)
  | raisingSink (failOn : List Nat)
  deriving DecidableEq, Repr

/-- program counter inside `DataSource.loop` (app.py lines 81-91), one point
per statement:
`checkSink` = line 83 (`if self.sink is None: raise ValueError`),
`setRunning` = line 84 (`self.paused = False`),
`readThread` = line 85 (`t = self.thread`),
`checkPaused` = line 86 (`while not self.paused`),
`checkSuper` = line 87 (`if t is not self.thread: break`),
`fetch` = line 89 (`v = next(self.source_gen)`),
`send` = line 90 (`self.sink.send(v)`),
`sleepStep` = line 91 (`if self.data_rate != 0: time.sleep(1.0/rate)`). -/
inductive LoopPC
  | checkSink
  | setRunning
  | readThread
  | checkPaused
  | checkSuper
  | fetch
  | send
  | sleepStep
  deriving DecidableEq, Repr

/-- state of one background thread: still executing `loop` (with its program
counter and the local variables `t` and `v`), exited the while loop normally,
or killed by an uncaught exception. -/
inductive ThreadState
  | running (pc : LoopPC) (tloc : Option Nat) (v : Option Nat)
  | exited
  | errored (e : PyErr)
  deriving DecidableEq, Repr

/-- the two controller-facing operations of the pipeline. -/
inductive CtrlOp
  | pauseOp
  | unpauseOp
  deriving DecidableEq, Repr

/-- program counter of the controller thread.  `pause()` (app.py lines 60-65)
is broken into `pauseCheck` (line 61), `pauseSet` (line 62), `pauseRead`
(line 63), `pauseJoin` (line 64) and `pauseClear` (line 65); the flag records
whether the pause is the internal call at the start of `unpause()` (line 68),
in which case control continues to `spawn` (lines 69-71: create the new
`Thread`, publish it in `self.thread`, and `start()` it).  `crashed` models an
exception raised on the controller's own thread. -/
inductive CtrlPC
  | idle
  | pauseCheck (inU : Bool)
  | pauseSet (inU : Bool)
  | pauseRead (inU : Bool)
  | pauseJoin (inU : Bool) (t : Option Nat)
  | pauseClear (inU : Bool)
  | spawn
  | crashed (e : PyErr)
  deriving DecidableEq, Repr

/-- global configuration: the shared DataSource fields, the delivery and log
records, the pool of spawned loop threads, and the controller state.
`delivered` records each completed `sink.send` call as (thread id, value);
`errLog` records logged sink failures; `slept` records the sleep durations
performed at line 91. -/
structure Config where
  paused : Bool
  thread : Option Nat
  gen : List Nat
  rate : ℚ
  sink : Option SinkModel
  delivered : List (Nat × Nat)
  errLog : List (Nat × Nat)
  slept : List ℚ
  loops : List (Nat × ThreadState)
  nextId : Nat
  script : List CtrlOp
  cpc : CtrlPC
  deriving DecidableEq, Repr

/-- embedding of `DataSource.__init__` (app.py lines 41-58) plus a controller
script: `self.thread = None`, `self.paused = True`, generator / rate / sink as
given. -/
def Config.init (gen : List Nat) (rate : ℚ) (sink : Option SinkModel)
    (script : List CtrlOp) : Config :=
  { paused := true, thread := none, gen := gen, rate := rate, sink := sink,
    delivered := [], errLog := [], slept := [], loops := [], nextId := 0,
    script := script, cpc := CtrlPC.idle }

/-- look up the state of thread `tid` in the thread pool. -/
def getThread (loops : List (Nat × ThreadState)) (tid : Nat) : Option ThreadState :=
  (loops.find? (fun p => p.1 == tid)).map (fun p => p.2)

/-- replace the state of thread `tid` in the thread pool. -/
def setThread (loops : List (Nat × ThreadState)) (tid : Nat) (st : ThreadState) :
    List (Nat × ThreadState) :=
  loops.map (fun p => if p.1 == tid then (p.1, st) else p)

/-- the delay performed at app.py line 91 after a delivery:
`if self.data_rate != 0: time.sleep(1.0 / float(self.data_rate))`,
i.e. no sleep when the rate is 0, otherwise `1/rate` seconds. -/
def sleepAfterDelivery (rate : ℚ) : Option ℚ :=
  if rate = 0 then none else some (1 / rate)

/-- one atomic statement of the controller thread (`pause` / `unpause`,
app.py lines 60-71).  `none` means the controller cannot step: it is blocked
in `t.join()` while the joined thread is still running, it has crashed, or its
script is finished. -/
def ctrlStep (cfg : Config) : Option Config :=
  match cfg.cpc with
  | CtrlPC.idle =>
    match cfg.script with
    | [] => none
    | CtrlOp.pauseOp :: rest =>
      some { cfg with script := rest, cpc := CtrlPC.pauseCheck false }
    | CtrlOp.unpauseOp :: rest =>
      some { cfg with script := rest, cpc := CtrlPC.pauseCheck true }
  | CtrlPC.pauseCheck inU =>
    -- line 61: `if self.paused: return`
    if cfg.paused then
      some { cfg with cpc := if inU then CtrlPC.spawn else CtrlPC.idle }
    else
      some { cfg with cpc := CtrlPC.pauseSet inU }
  | CtrlPC.pauseSet inU =>
    -- line 62: `self.paused = True`
    some { cfg with paused := true, cpc := CtrlPC.pauseRead inU }
  | CtrlPC.pauseRead inU =>
    -- line 63: `t = self.thread`
    some { cfg with cpc := CtrlPC.pauseJoin inU cfg.thread }
  | CtrlPC.pauseJoin inU t =>
    -- line 64: `t.join()`; blocks until the joined thread has terminated
    match t with
    | none => some { cfg with cpc := CtrlPC.crashed PyErr.attributeError }
    | some tid =>
      match getThread cfg.loops tid with
      | some (ThreadState.running _ _ _) => none
      | some ThreadState.exited => some { cfg with cpc := CtrlPC.pauseClear inU }
      | some (ThreadState.errored _) => some { cfg with cpc := CtrlPC.pauseClear inU }
      | none => none
  | CtrlPC.pauseClear inU =>
    -- line 65: `self.thread = None`
    some { cfg with thread := none,
                    cpc := if inU then CtrlPC.spawn else CtrlPC.idle }
  | CtrlPC.spawn =>
    -- lines 69-71: `self.thread = t = Thread(target=self.loop)`,
    -- `t.daemon = True`, `t.start()`.  The new thread cannot run before
    -- `start()`, so publication and start are one atomic step here.
    some { cfg with
      thread := some cfg.nextId,
      loops := cfg.loops ++ [(cfg.nextId, ThreadState.running LoopPC.checkSink none none)],
      nextId := cfg.nextId + 1,
      cpc := CtrlPC.idle }
  | CtrlPC.crashed _ => none

/-- one atomic statement of background thread `tid` executing
`DataSource.loop` (app.py lines 81-91).  `none` means the thread cannot step
(it does not exist, has exited, or was killed by an exception). -/
def loopStep (cfg : Config) (tid : Nat) : Option Config :=
  match getThread cfg.loops tid with
  | some (ThreadState.running pc tloc vOpt) =>
    match pc with
    | LoopPC.checkSink =>
      -- line 83: `if self.sink is None: raise ValueError(...)`
      match cfg.sink with
      | none =>
        some { cfg with loops := setThread cfg.loops tid (ThreadState.errored PyErr.valueError) }
      | some _ =>
        some { cfg with loops := setThread cfg.loops tid (ThreadState.running LoopPC.setRunning tloc vOpt) }
    | LoopPC.setRunning =>
      -- line 84: `self.paused = False`
      some { cfg with paused := false,
                      loops := setThread cfg.loops tid (ThreadState.running LoopPC.readThread tloc vOpt) }
    | LoopPC.readThread =>
      -- line 85: `t = self.thread`
      some { cfg with loops := setThread cfg.loops tid (ThreadState.running LoopPC.checkPaused cfg.thread vOpt) }
    | LoopPC.checkPaused =>
      -- line 86: `while not self.paused:`
      if cfg.paused then
        some { cfg with loops := setThread cfg.loops tid ThreadState.exited }
      else
        some { cfg with loops := setThread cfg.loops tid (ThreadState.running LoopPC.checkSuper tloc vOpt) }
    | LoopPC.checkSuper =>
      -- lines 87-88: `if t is not self.thread: log.warn(...); break`
      if tloc != cfg.thread then
        some { cfg with loops := setThread cfg.loops tid ThreadState.exited }
      else
        some { cfg with loops := setThread cfg.loops tid (ThreadState.running LoopPC.fetch tloc vOpt) }
    | LoopPC.fetch =>
      -- line 89: `v = next(self.source_gen)`
      match cfg.gen with
      | [] =>
        some { cfg with loops := setThread cfg.loops tid (ThreadState.errored PyErr.stopIteration) }
      | x :: rest =>
        some { cfg with gen := rest,
                        loops := setThread cfg.loops tid (ThreadState.running LoopPC.send tloc (some x)) }
    | LoopPC.send =>
      -- line 90: `self.sink.send(v)`; the loop has no try/except here
      match vOpt with
      | none => none
      | some v =>
        match cfg.sink with
        | none => none
        | some (SinkModel.appSink failOn) =>
          -- CandleApp.send catches internally and logs, then returns
          some { cfg with
            delivered := cfg.delivered ++ [(tid, v)],
            errLog := if failOn.contains v then cfg.errLog ++ [(tid, v)] else cfg.errLog,
            loops := setThread cfg.loops tid (ThreadState.running LoopPC.sleepStep tloc none) }
        | some (SinkModel.raisingSink failOn) =>
          if failOn.contains v then
            some { cfg with
              errLog := cfg.errLog ++ [(tid, v)],
              loops := setThread cfg.loops tid (ThreadState.errored PyErr.sinkError) }
          else
            some { cfg with
              delivered := cfg.delivered ++ [(tid, v)],
              loops := setThread cfg.loops tid (ThreadState.running LoopPC.sleepStep tloc none) }
    | LoopPC.sleepStep =>
      -- line 91: `if self.data_rate != 0: time.sleep(1.0 / float(self.data_rate))`
      some { cfg with
        slept := cfg.slept ++ (sleepAfterDelivery cfg.rate).toList,
        loops := setThread cfg.loops tid (ThreadState.running LoopPC.checkPaused tloc vOpt) }
  | _ => none

/-- a scheduling choice: let the controller step, or let background thread
`tid` step. -/
inductive Choice
  | ctrl
  | bg (tid : Nat)
  deriving DecidableEq, Repr

/-- one step of the interleaved system under the given scheduling choice. -/
def execStep (cfg : Config) : Choice → Option Config
  | Choice.ctrl => ctrlStep cfg
  | Choice.bg tid => loopStep cfg tid

/-- run a finite schedule; `none` if some chosen step is not enabled. -/
def runSteps (cfg : Config) : List Choice → Option Config
  | [] => some cfg
  | c :: cs =>
    match execStep cfg c with
    | some cfg1 => runSteps cfg1 cs
    | none => none

/-- whether the controller's last operation raised an exception to its caller
(the only way a `pause()` / `unpause()` call itself fails). -/
def ctrlRaised (cfg : Config) : Bool :=
  match cfg.cpc with
  | CtrlPC.crashed _ => true
  | _ => false

/-- a configuration check lifted over the optional result of a run. -/
def cfgSat (o : Option Config) (p : Config → Bool) : Bool :=
  match o with
  | some cfg => p cfg
  | none => false

/-- sequential view of the DataSource fields (app.py lines 54-58), used for the
synchronous `next` path.  The external generator is embedded as its remaining
values, carried in the record for state passing. -/
structure DS (α σ : Type) where
  source_gen : Option (List α)
  data_rate : ℚ
  thread : Option Nat
  paused : Bool
  sink : Option σ

/-- embedding of `DataSource.next` (app.py lines 73-79): returns `None` when
`source_gen` is `None`, otherwise `next(self.source_gen)` — the next generator
value, with `StopIteration` propagating when the generator is exhausted. -/
def DS.next {α σ : Type} (s : DS α σ) : Except PyErr (Option α) × DS α σ :=
  match s.source_gen with
  | none => (Except.ok none, s)
  | some [] => (Except.error PyErr.stopIteration, s)
  | some (x :: rest) => (Except.ok (some x), { s with source_gen := some rest })

/-- the list of values produced by `n` successive `DataSource.next` calls
(stopping early if a call yields no value). -/
def DS.iterNextVals {α σ : Type} : Nat → DS α σ → List α
  | 0, _ => []
  | n + 1, s =>
    match DS.next s with
    | (Except.ok (some x), s1) => x :: DS.iterNextVals n s1
    | _ => []

/-- helper for the pull path: `n` successive `DataSource.next` calls on a
bound generator return its first `n` values in order. -/
theorem iterNextVals_eq_take {α σ : Type} :
    ∀ (n : Nat) (s : DS α σ) (l : List α), s.source_gen = some l → n ≤ l.length →
      DS.iterNextVals n s = l.take n := by
  intro n
  induction n with
  | zero => intro s l _ _; rfl
  | succ n ih =>
    intro s l h hl
    cases l with
    | nil => simp at hl
    | cons x rest =>
      have hnext : DS.next s = (Except.ok (some x), { s with source_gen := some rest }) := by
        simp [DS.next, h]
      simp only [DS.iterNextVals, hnext, List.take_succ_cons, List.cons.injEq, true_and]
      exact ih { s with source_gen := some rest } rest rfl (Nat.le_of_succ_le_succ hl)

/-- C6: `next` returns the NoGenerator result (`None`) when no generator is
bound; otherwise successive calls return successive generator values in
exactly the order the generator yields them, for any paused / thread / sink
state of the DataSource. -/
theorem next_pull_order {α σ : Type} (s : DS α σ) :
    (s.source_gen = none → DS.next s = (Except.ok none, s)) ∧
    (∀ (l : List α) (n : Nat), s.source_gen = some l → n ≤ l.length →
      DS.iterNextVals n s = l.take n) := by
  constructor
  · intro h; simp [DS.next, h]
  · intro l n h hl; exact iterNextVals_eq_take n s l h hl

/-- C6 witness: a paused DataSource holding generator values `[5, 6, 7]`
returns `[5, 6]` over two successive `next` calls. -/
theorem next_pull_order_witness :
    (DS.mk (some [5, 6, 7]) 1 none true (none : Option Unit)).source_gen = some [5, 6, 7] ∧
    2 ≤ ([5, 6, 7] : List Nat).length ∧
    DS.iterNextVals 2 (DS.mk (some [5, 6, 7]) 1 none true (none : Option Unit)) =
      ([5, 6, 7] : List Nat).take 2 :=
  ⟨rfl, by decide, (next_pull_order _).2 [5, 6, 7] 2 rfl (by decide)⟩

/-- C10: `next` is frame-preserving on the DataSource: `paused`, `thread`,
`sink` and `data_rate` are unchanged by the call, and its only effect is
advancing the generator by at most one element (by none when no generator is
bound or it is exhausted). -/
theorem next_frame_property {α σ : Type} (s : DS α σ) :
    (DS.next s).2.paused = s.paused ∧ (DS.next s).2.thread = s.thread ∧
    (DS.next s).2.sink = s.sink ∧ (DS.next s).2.data_rate = s.data_rate ∧
    (DS.next s).2.source_gen = Option.map (fun l => List.drop 1 l) s.source_gen := by
  cases h : s.source_gen with
  | none => simp [DS.next, h]
  | some l =>
    cases l with
    | nil => simp [DS.next, h]
    | cons x rest => simp [DS.next, h]

/-- C4: calling `pause()` on an already-paused pipeline is a no-op: the check
at line 61 returns immediately (two controller micro-steps: dispatch and the
check itself, with no join), and every DataSource field — paused flag, thread
handle, generator, sink, rate — and every record of the run is unchanged. -/
theorem pause_idempotent (cfg : Config) (ops : List CtrlOp)
    (hp : cfg.paused = true) (hc : cfg.cpc = CtrlPC.idle)
    (hs : cfg.script = CtrlOp.pauseOp :: ops) :
    runSteps cfg [Choice.ctrl, Choice.ctrl] =
      some { cfg with script := ops, cpc := CtrlPC.idle } := by
  simp [runSteps, execStep, ctrlStep, hc, hs, hp]

/-- C4 witness: a freshly constructed (hence paused) DataSource with a
one-`pause()` script: the call completes at once leaving the state intact. -/
theorem pause_idempotent_witness :
    runSteps (Config.init [1, 2] 1 none [CtrlOp.pauseOp]) [Choice.ctrl, Choice.ctrl] =
      some { Config.init [1, 2] 1 none [CtrlOp.pauseOp] with
             script := ([] : List CtrlOp), cpc := CtrlPC.idle } :=
  pause_idempotent (Config.init [1, 2] 1 none [CtrlOp.pauseOp]) [] rfl rfl rfl

/-- C5: cooperative rate limiting at line 91: for a non-negative rate, each
iteration's post-delivery delay is `1/rate` seconds when `rate > 0` and absent
when `rate = 0` (unbounded rate, not stopped); and the loop's sleep statement
performs exactly this delay, after the `send` and before re-entering the while
check. -/
theorem rate_limiting_sleep :
    (∀ q : ℚ, 0 ≤ q →
      (0 < q → sleepAfterDelivery q = some (1 / q)) ∧
      (q = 0 → sleepAfterDelivery q = none)) ∧
    (∀ (cfg : Config) (tid : Nat) (t : Option Nat) (v : Option Nat),
      getThread cfg.loops tid = some (ThreadState.running LoopPC.sleepStep t v) →
      loopStep cfg tid = some { cfg with
        slept := cfg.slept ++ (sleepAfterDelivery cfg.rate).toList,
        loops := setThread cfg.loops tid (ThreadState.running LoopPC.checkPaused t v) }) := by
  constructor
  · intro q _
    constructor
    · intro hq; simp [sleepAfterDelivery, hq.ne']
    · intro hq; simp [sleepAfterDelivery, hq]
  · intro cfg tid t v h
    simp [loopStep, h]

/-- C5 witness: rate 2 sleeps `1/2` seconds after a delivery, and a concrete
loop thread at the sleep statement records exactly that delay. -/
theorem rate_limiting_sleep_witness :
    (0 : ℚ) ≤ 2 ∧ (0 < (2 : ℚ) → sleepAfterDelivery 2 = some (1 / 2)) ∧
    loopStep { Config.init [] 2 (some (SinkModel.appSink [])) [] with
        loops := [(0, ThreadState.running LoopPC.sleepStep (some 0) none)] } 0 =
      some { Config.init [] 2 (some (SinkModel.appSink [])) [] with
        slept := ([] : List ℚ) ++ (sleepAfterDelivery 2).toList,
        loops := setThread [(0, ThreadState.running LoopPC.sleepStep (some 0) none)] 0
                   (ThreadState.running LoopPC.checkPaused (some 0) none) } :=
  ⟨by norm_num,
   (rate_limiting_sleep.1 2 (by norm_num)).1,
   rate_limiting_sleep.2 _ 0 (some 0) none rfl⟩

/-- initial configuration for the pause-barrier race: generator `10, 20, ...`,
unbounded rate, the CandleApp sink, controller script
`unpause(); unpause(); pause()`. -/
def c1cfg0 : Config :=
  Config.init [10, 20, 30, 40] 0 (some (SinkModel.appSink []))
    [CtrlOp.unpauseOp, CtrlOp.unpauseOp, CtrlOp.pauseOp]

/-- schedule prefix: both `unpause()` calls complete before either spawned
thread runs (the second internal pause sees `paused` still `True` and joins
nothing); thread 1 then runs up to its first delivery, and thread 0 starts,
reads `t = self.thread` (= thread 1), passes the supersession check, fetches a
value, and is preempted just before `self.sink.send(v)`. -/
def c1s1 : List Choice :=
  [Choice.ctrl, Choice.ctrl, Choice.ctrl, Choice.ctrl, Choice.ctrl, Choice.ctrl,
   Choice.bg 1, Choice.bg 1, Choice.bg 1, Choice.bg 1, Choice.bg 1, Choice.bg 1, Choice.bg 1,
   Choice.bg 0, Choice.bg 0, Choice.bg 0, Choice.bg 0, Choice.bg 0, Choice.bg 0]

/-- schedule of the `pause()` call: the controller sets `paused`, joins
`self.thread` (= thread 1, which duly exits) and clears the handle; thread 0
is still parked at its `send`. -/
def c1s2 : List Choice :=
  [Choice.ctrl, Choice.ctrl, Choice.ctrl, Choice.ctrl,
   Choice.bg 1, Choice.bg 1,
   Choice.ctrl, Choice.ctrl]

/-- C1 is violated by the code: `pause()` is called while the pipeline is
running (`paused = False`, first checkpoint), it completes its join and
returns (second checkpoint: script consumed, controller idle, flag cleared,
thread 1 joined and handle cleared) — and then a further Sink delivery
`(0, 20)` occurs with no intervening `unpause()`, because `pause()` joined
only `self.thread` and the superseded zombie thread 0 survived it. -/
theorem pause_barrier_violated_trace :
    cfgSat (runSteps c1cfg0 c1s1) (fun cfg =>
      decide (cfg.paused = false) && decide (cfg.script = [CtrlOp.pauseOp]) &&
      decide (cfg.cpc = CtrlPC.idle) && decide (cfg.delivered = [(1, 10)])) = true ∧
    cfgSat (runSteps c1cfg0 (c1s1 ++ c1s2)) (fun cfg =>
      decide (cfg.paused = true) && decide (cfg.thread = none) &&
      decide (cfg.cpc = CtrlPC.idle) && decide (cfg.script = []) &&
      decide (cfg.delivered = [(1, 10)]) &&
      decide (getThread cfg.loops 1 = some ThreadState.exited) &&
      decide (ctrlRaised cfg = false)) = true ∧
    cfgSat (runSteps c1cfg0 (c1s1 ++ c1s2 ++ [Choice.bg 0])) (fun cfg =>
      decide (cfg.delivered = [(1, 10), (0, 20)])) = true := by
  decide

/-- initial configuration for the mutual-exclusion race: same double-unpause
script without the closing pause. -/
def c2cfg0 : Config :=
  Config.init [10, 20, 30, 40] 0 (some (SinkModel.appSink []))
    [CtrlOp.unpauseOp, CtrlOp.unpauseOp]

/-- schedule: both `unpause()` calls complete before either spawned thread
runs; both threads then read `t = self.thread` (= thread 1), pass the
supersession check, fetch a value each, and stand at `self.sink.send(v)`
simultaneously. -/
def c2s1 : List Choice :=
  [Choice.ctrl, Choice.ctrl, Choice.ctrl, Choice.ctrl, Choice.ctrl, Choice.ctrl,
   Choice.bg 1, Choice.bg 1, Choice.bg 1, Choice.bg 1, Choice.bg 1, Choice.bg 1,
   Choice.bg 0, Choice.bg 0, Choice.bg 0, Choice.bg 0, Choice.bg 0, Choice.bg 0]

/-- schedule continuation: both threads deliver, then thread 0 completes a
further full iteration, interleaving its deliveries with thread 1's. -/
def c2s2 : List Choice :=
  [Choice.bg 0, Choice.bg 1,
   Choice.bg 0, Choice.bg 0, Choice.bg 0, Choice.bg 0, Choice.bg 0]

/-- C2 is violated by the code: after a rapid `unpause(); unpause()` the two
spawned loop instances are both mid-delivery at `self.sink.send(v)` at the
same time (first checkpoint) — neither one ever observes supersession, since
both hold `t` = thread 1 = `self.thread` — and their deliveries interleave:
`[(0, 20), (1, 10), (0, 30)]` with both instances still running (second
checkpoint). -/
theorem double_unpause_concurrent_loops_trace :
    cfgSat (runSteps c2cfg0 c2s1) (fun cfg =>
      decide (getThread cfg.loops 0 =
        some (ThreadState.running LoopPC.send (some 1) (some 20))) &&
      decide (getThread cfg.loops 1 =
        some (ThreadState.running LoopPC.send (some 1) (some 10))) &&
      decide (cfg.paused = false) && decide (cfg.thread = some 1)) = true ∧
    cfgSat (runSteps c2cfg0 (c2s1 ++ c2s2)) (fun cfg =>
      decide (cfg.delivered = [(0, 20), (1, 10), (0, 30)]) &&
      decide (getThread cfg.loops 0 =
        some (ThreadState.running LoopPC.sleepStep (some 1) none)) &&
      decide (getThread cfg.loops 1 =
        some (ThreadState.running LoopPC.sleepStep (some 1) none))) = true := by
  decide

/-- C3 counterexample: calling `unpause()` with no Sink bound does NOT fail in
the caller — the controller runs to completion with no exception
(`ctrlRaised = false`, script consumed, controller idle); the `ValueError` of
line 83 is raised on the spawned background thread, which dies before marking
the pipeline running: `paused` stays `true` and nothing is delivered. -/
theorem unpause_no_sink_call_succeeds :
    cfgSat (runSteps (Config.init [10] 1 none [CtrlOp.unpauseOp])
        [Choice.ctrl, Choice.ctrl, Choice.ctrl, Choice.bg 0]) (fun cfg =>
      decide (ctrlRaised cfg = false) && decide (cfg.cpc = CtrlPC.idle) &&
      decide (cfg.script = []) &&
      decide (getThread cfg.loops 0 = some (ThreadState.errored PyErr.valueError)) &&
      decide (cfg.paused = true) && decide (cfg.delivered = [])) = true := by
  decide

/-- C3 amended: for every generator, rate and remaining script, `unpause()`
with no Sink bound returns normally to the caller; the spawned loop thread
raises `ValueError` at its sink check and dies before `self.paused = False`,
so the pipeline remains Paused and no delivery ever occurs. -/
theorem unpause_no_sink_amended (gen : List Nat) (rate : ℚ) (ops : List CtrlOp) :
    runSteps (Config.init gen rate none (CtrlOp.unpauseOp :: ops))
        [Choice.ctrl, Choice.ctrl, Choice.ctrl, Choice.bg 0] =
      some { paused := true, thread := some 0, gen := gen, rate := rate, sink := none,
             delivered := [], errLog := [], slept := [],
             loops := [(0, ThreadState.errored PyErr.valueError)],
             nextId := 1, script := ops, cpc := CtrlPC.idle } := by
  rfl

/-- C7 counterexample: `DataSource.loop` has no try/except around
`self.sink.send(v)` (line 90).  A Sink whose `send` raises on the second value
kills the loop thread: only `(0, 10)` was delivered, the failing value `20`
was consumed from the generator but never redelivered, delivery k+1 (value
`30`, still at the head of the generator) never occurs, and the dead thread
can take no further step. -/
theorem raising_sink_kills_loop :
    cfgSat (runSteps (Config.init [10, 20, 30] 0 (some (SinkModel.raisingSink [20]))
        [CtrlOp.unpauseOp])
        ([Choice.ctrl, Choice.ctrl, Choice.ctrl] ++ List.replicate 12 (Choice.bg 0)))
      (fun cfg =>
        decide (cfg.delivered = [(0, 10)]) && decide (cfg.errLog = [(0, 20)]) &&
        decide (getThread cfg.loops 0 = some (ThreadState.errored PyErr.sinkError)) &&
        decide (cfg.gen = [30]) && decide (loopStep cfg 0 = none)) = true := by
  decide

/-- splitting a schedule run at an intermediate point. -/
theorem runSteps_append (cfg : Config) (l1 l2 : List Choice) :
    runSteps cfg (l1 ++ l2) = (runSteps cfg l1).bind (fun c => runSteps c l2) := by
  induction l1 generalizing cfg with
  | nil => rfl
  | cons c cs ih =>
    cases h : execStep cfg c with
    | none => simp [runSteps, h]
    | some cfg1 => simp [runSteps, h, ih cfg1]

/-- C7 amended: the catch-and-log lives in the Sink itself — `CandleApp.send`
(app.py lines 146-156) wraps its body in try/except and logs the failure — so
with that sink a failure while handling delivery k (value `20`) is logged and
the loop continues: delivery k+1 occurs and uses the next generator value
`30`, with no value redelivered and none skipped. -/
theorem sink_failure_isolated_with_app_sink (rest : List Nat) :
    runSteps (Config.init (10 :: 20 :: 30 :: rest) 0 (some (SinkModel.appSink [20]))
        [CtrlOp.unpauseOp])
        ([Choice.ctrl, Choice.ctrl, Choice.ctrl] ++ List.replicate 5 (Choice.bg 0) ++
          List.replicate 5 (Choice.bg 0) ++ List.replicate 5 (Choice.bg 0) ++
          [Choice.bg 0, Choice.bg 0]) =
      some { paused := false, thread := some 0, gen := rest, rate := 0,
             sink := some (SinkModel.appSink [20]),
             delivered := [(0, 10), (0, 20), (0, 30)], errLog := [(0, 20)], slept := [],
             loops := [(0, ThreadState.running LoopPC.sleepStep (some 0) none)],
             nextId := 1, script := [], cpc := CtrlPC.idle } := by
  have h1 : runSteps (Config.init (10 :: 20 :: 30 :: rest) 0 (some (SinkModel.appSink [20]))
      [CtrlOp.unpauseOp]) [Choice.ctrl, Choice.ctrl, Choice.ctrl] =
      some { paused := true, thread := some 0, gen := 10 :: 20 :: 30 :: rest, rate := 0,
             sink := some (SinkModel.appSink [20]), delivered := [], errLog := [],
             slept := [], loops := [(0, ThreadState.running LoopPC.checkSink none none)],
             nextId := 1, script := [], cpc := CtrlPC.idle } := rfl
  have h2 : runSteps
      { paused := true, thread := some 0, gen := 10 :: 20 :: 30 :: rest, rate := 0,
        sink := some (SinkModel.appSink [20]), delivered := [], errLog := [],
        slept := [], loops := [(0, ThreadState.running LoopPC.checkSink none none)],
        nextId := 1, script := [], cpc := CtrlPC.idle }
      (List.replicate 5 (Choice.bg 0)) =
      some { paused := false, thread := some 0, gen := 10 :: 20 :: 30 :: rest, rate := 0,
             sink := some (SinkModel.appSink [20]), delivered := [], errLog := [],
             slept := [], loops := [(0, ThreadState.running LoopPC.fetch (some 0) none)],
             nextId := 1, script := [], cpc := CtrlPC.idle } := rfl
  have h3 : runSteps
      { paused := false, thread := some 0, gen := 10 :: 20 :: 30 :: rest, rate := 0,
        sink := some (SinkModel.appSink [20]), delivered := [], errLog := [],
        slept := [], loops := [(0, ThreadState.running LoopPC.fetch (some 0) none)],
        nextId := 1, script := [], cpc := CtrlPC.idle }
      (List.replicate 5 (Choice.bg 0)) =
      some { paused := false, thread := some 0, gen := 20 :: 30 :: rest, rate := 0,
             sink := some (SinkModel.appSink [20]), delivered := [(0, 10)], errLog := [],
             slept := [], loops := [(0, ThreadState.running LoopPC.fetch (some 0) none)],
             nextId := 1, script := [], cpc := CtrlPC.idle } := rfl
  have h4 : runSteps
      { paused := false, thread := some 0, gen := 20 :: 30 :: rest, rate := 0,
        sink := some (SinkModel.appSink [20]), delivered := [(0, 10)], errLog := [],
        slept := [], loops := [(0, ThreadState.running LoopPC.fetch (some 0) none)],
        nextId := 1, script := [], cpc := CtrlPC.idle }
      (List.replicate 5 (Choice.bg 0)) =
      some { paused := false, thread := some 0, gen := 30 :: rest, rate := 0,
             sink := some (SinkModel.appSink [20]), delivered := [(0, 10), (0, 20)],
             errLog := [(0, 20)], slept := [],
             loops := [(0, ThreadState.running LoopPC.fetch (some 0) none)],
             nextId := 1, script := [], cpc := CtrlPC.idle } := rfl
  have h5 : runSteps
      { paused := false, thread := some 0, gen := 30 :: rest, rate := 0,
        sink := some (SinkModel.appSink [20]), delivered := [(0, 10), (0, 20)],
        errLog := [(0, 20)], slept := [],
        loops := [(0, ThreadState.running LoopPC.fetch (some 0) none)],
        nextId := 1, script := [], cpc := CtrlPC.idle }
      [Choice.bg 0, Choice.bg 0] =
      some { paused := false, thread := some 0, gen := rest, rate := 0,
             sink := some (SinkModel.appSink [20]),
             delivered := [(0, 10), (0, 20), (0, 30)], errLog := [(0, 20)], slept := [],
             loops := [(0, ThreadState.running LoopPC.sleepStep (some 0) none)],
             nextId := 1, script := [], cpc := CtrlPC.idle } := rfl
  rw [runSteps_append, runSteps_append, runSteps_append, runSteps_append,
      h1, Option.some_bind, h2, Option.some_bind, h3, Option.some_bind, h4,
      Option.some_bind, h5]

/-- C8 counterexample: when the generator is exhausted mid-loop, the
`StopIteration` of line 89 kills the loop thread, but the pipeline state does
NOT return to Paused: `paused` remains `false`, `self.thread` still holds the
dead thread, and the error reaches no one — the dead thread can take no
further step and the controller was never told. -/
theorem generator_exhaustion_not_paused :
    cfgSat (runSteps (Config.init [10] 0 (some (SinkModel.appSink [])) [CtrlOp.unpauseOp])
        ([Choice.ctrl, Choice.ctrl, Choice.ctrl] ++ List.replicate 11 (Choice.bg 0)))
      (fun cfg =>
        decide (cfg.paused = false) && decide (cfg.thread = some 0) &&
        decide (getThread cfg.loops 0 = some (ThreadState.errored PyErr.stopIteration)) &&
        decide (cfg.delivered = [(0, 10)]) && decide (loopStep cfg 0 = none)) = true := by
  decide

/-- C8 amended: for every tick value, exhaustion makes the loop exit (the
uncaught `StopIteration` kills the thread, so no further value is ever
delivered), but the paused flag stays `false` and the thread handle is not
cleared — the pipeline does not return to Paused and the error is not
surfaced to the controller. -/
theorem generator_exhaustion_amended (x : Nat) :
    runSteps (Config.init [x] 0 (some (SinkModel.appSink [])) [CtrlOp.unpauseOp])
        ([Choice.ctrl, Choice.ctrl, Choice.ctrl] ++ List.replicate 5 (Choice.bg 0) ++
          List.replicate 5 (Choice.bg 0) ++ [Choice.bg 0]) =
      some { paused := false, thread := some 0, gen := [], rate := 0,
             sink := some (SinkModel.appSink []),
             delivered := [(0, x)], errLog := [], slept := [],
             loops := [(0, ThreadState.errored PyErr.stopIteration)],
             nextId := 1, script := [], cpc := CtrlPC.idle } := by
  have h1 : runSteps (Config.init [x] 0 (some (SinkModel.appSink [])) [CtrlOp.unpauseOp])
      [Choice.ctrl, Choice.ctrl, Choice.ctrl] =
      some { paused := true, thread := some 0, gen := [x], rate := 0,
             sink := some (SinkModel.appSink []), delivered := [], errLog := [],
             slept := [], loops := [(0, ThreadState.running LoopPC.checkSink none none)],
             nextId := 1, script := [], cpc := CtrlPC.idle } := rfl
  have h2 : runSteps
      { paused := true, thread := some 0, gen := [x], rate := 0,
        sink := some (SinkModel.appSink []), delivered := [], errLog := [],
        slept := [], loops := [(0, ThreadState.running LoopPC.checkSink none none)],
        nextId := 1, script := [], cpc := CtrlPC.idle }
      (List.replicate 5 (Choice.bg 0)) =
      some { paused := false, thread := some 0, gen := [x], rate := 0,
             sink := some (SinkModel.appSink []), delivered := [], errLog := [],
             slept := [], loops := [(0, ThreadState.running LoopPC.fetch (some 0) none)],
             nextId := 1, script := [], cpc := CtrlPC.idle } := rfl
  have h3 : runSteps
      { paused := false, thread := some 0, gen := [x], rate := 0,
        sink := some (SinkModel.appSink []), delivered := [], errLog := [],
        slept := [], loops := [(0, ThreadState.running LoopPC.fetch (some 0) none)],
        nextId := 1, script := [], cpc := CtrlPC.idle }
      (List.replicate 5 (Choice.bg 0)) =
      some { paused := false, thread := some 0, gen := [], rate := 0,
             sink := some (SinkModel.appSink []), delivered := [(0, x)], errLog := [],
             slept := [], loops := [(0, ThreadState.running LoopPC.fetch (some 0) none)],
             nextId := 1, script := [], cpc := CtrlPC.idle } := rfl
  have h4 : runSteps
      { paused := false, thread := some 0, gen := [], rate := 0,
        sink := some (SinkModel.appSink []), delivered := [(0, x)], errLog := [],
        slept := [], loops := [(0, ThreadState.running LoopPC.fetch (some 0) none)],
        nextId := 1, script := [], cpc := CtrlPC.idle }
      [Choice.bg 0] =
      some { paused := false, thread := some 0, gen := [], rate := 0,
             sink := some (SinkModel.appSink []), delivered := [(0, x)], errLog := [],
             slept := [], loops := [(0, ThreadState.errored PyErr.stopIteration)],
             nextId := 1, script := [], cpc := CtrlPC.idle } := rfl
  rw [runSteps_append, runSteps_append, runSteps_append,
      h1, Option.some_bind, h2, Option.some_bind, h3, Option.some_bind, h4]

/-- the controller never un-pauses the pipeline: every statement of `pause` /
`unpause` leaves `paused` unchanged or sets it to `true` (line 62). -/
theorem ctrlStep_paused (cfg cfg' : Config) (h : ctrlStep cfg = some cfg') :
    cfg'.paused = cfg.paused ∨ cfg'.paused = true := by
  unfold ctrlStep at h
  repeat' split at h
  all_goals try (injection h with h)
  all_goals try subst h
  all_goals simp_all

/-- within `loop`, only the statement `self.paused = False` of line 84 can turn
the flag off; every other loop statement leaves a true flag true. -/
theorem loopStep_paused (cfg : Config) (tid : Nat) (cfg' : Config)
    (h : loopStep cfg tid = some cfg') (h2 : cfg'.paused = false) :
    cfg.paused = false ∨
      ∃ t v, getThread cfg.loops tid = some (ThreadState.running LoopPC.setRunning t v) := by
  unfold loopStep at h
  repeat' split at h
  all_goals try (injection h with h)
  all_goals try subst h
  all_goals simp_all

/-- `setThread` preserves the size of the thread pool. -/
theorem setThread_length (loops : List (Nat × ThreadState)) (tid : Nat) (st : ThreadState) :
    (setThread loops tid st).length = loops.length := by
  simp [setThread]

/-- a loop statement never creates or destroys threads. -/
theorem loopStep_loops_length (cfg : Config) (tid : Nat) (cfg' : Config)
    (h : loopStep cfg tid = some cfg') : cfg'.loops.length = cfg.loops.length := by
  unfold loopStep at h
  repeat' split at h
  all_goals try (injection h with h)
  all_goals try subst h
  all_goals simp_all [setThread_length]

/-- the only controller statement that changes the thread pool is the spawn of
`unpause` (lines 69-71). -/
theorem ctrlStep_loops (cfg cfg' : Config) (h : ctrlStep cfg = some cfg') :
    cfg'.loops = cfg.loops ∨ cfg.cpc = CtrlPC.spawn := by
  unfold ctrlStep at h
  repeat' split at h
  all_goals try (injection h with h)
  all_goals try subst h
  all_goals simp_all

/-- the spawn statement is reached only from inside `unpause`: either its
internal pause returned at the line-61 check, or that pause completed its
line-65 clear, in both cases with the unpause flag set. -/
theorem ctrlStep_spawn_from_unpause (cfg cfg' : Config) (h : ctrlStep cfg = some cfg')
    (h2 : cfg'.cpc = CtrlPC.spawn) :
    cfg.cpc = CtrlPC.pauseCheck true ∨ cfg.cpc = CtrlPC.pauseClear true := by
  unfold ctrlStep at h
  repeat' split at h
  all_goals try (injection h with h)
  all_goals try subst h
  all_goals simp_all

/-- C9: a newly constructed DataSource is Paused with no thread handle, for
every choice of constructor arguments; the paused flag can turn false only by
a background thread executing the loop's `self.paused = False`; background
threads are created only by the controller's spawn statement; and the spawn
statement is reachable only through `unpause` — so the pipeline transitions to
running only via the `unpause` path. -/
theorem initial_state_paused :
    (∀ (gen : List Nat) (rate : ℚ) (sink : Option SinkModel) (script : List CtrlOp),
      (Config.init gen rate sink script).paused = true ∧
      (Config.init gen rate sink script).thread = none) ∧
    (∀ (cfg : Config) (c : Choice) (cfg' : Config),
      execStep cfg c = some cfg' → cfg.paused = true → cfg'.paused = false →
      ∃ tid, c = Choice.bg tid ∧
        ∃ t v, getThread cfg.loops tid = some (ThreadState.running LoopPC.setRunning t v)) ∧
    (∀ (cfg : Config) (c : Choice) (cfg' : Config),
      execStep cfg c = some cfg' → cfg'.loops.length ≠ cfg.loops.length →
      c = Choice.ctrl ∧ cfg.cpc = CtrlPC.spawn) ∧
    (∀ (cfg cfg' : Config), ctrlStep cfg = some cfg' → cfg'.cpc = CtrlPC.spawn →
      cfg.cpc = CtrlPC.pauseCheck true ∨ cfg.cpc = CtrlPC.pauseClear true) := by
  refine ⟨fun gen rate sink script => ⟨rfl, rfl⟩, ?_, ?_, ?_⟩
  · intro cfg c cfg' h hp hp'
    cases c with
    | ctrl =>
      rcases ctrlStep_paused cfg cfg' h with he | he
      · rw [he] at hp'; rw [hp'] at hp; exact absurd hp (by simp)
      · rw [he] at hp'; exact absurd hp' (by simp)
    | bg tid =>
      rcases loopStep_paused cfg tid cfg' h hp' with he | he
      · rw [he] at hp; exact absurd hp (by simp)
      · exact ⟨tid, rfl, he⟩
  · intro cfg c cfg' h hlen
    cases c with
    | ctrl =>
      rcases ctrlStep_loops cfg cfg' h with he | he
      · exact absurd (by rw [he]) hlen
      · exact ⟨rfl, he⟩
    | bg tid => exact absurd (loopStep_loops_length cfg tid cfg' h) hlen
  · intro cfg cfg' h h2
    exact ctrlStep_spawn_from_unpause cfg cfg' h h2

/-- C9 witness: the constructor property at a concrete DataSource; a concrete
step where the flag turns false (a spawned thread at line 84); a concrete
spawn step that creates a thread; and a concrete internal-pause check that
leads to spawn. -/
theorem initial_state_paused_witness :
    ((Config.init [1] 1 none []).paused = true ∧ (Config.init [1] 1 none []).thread = none) ∧
    (∃ tid, Choice.bg 0 = Choice.bg tid ∧
      ∃ t v, getThread ({ Config.init [] 0 (some (SinkModel.appSink [])) [] with
          loops := [(0, ThreadState.running LoopPC.setRunning none none)] }).loops tid =
        some (ThreadState.running LoopPC.setRunning t v)) ∧
    (Choice.ctrl = Choice.ctrl ∧
      ({ Config.init [] 0 none [] with cpc := CtrlPC.spawn }).cpc = CtrlPC.spawn) ∧
    (({ Config.init [] 0 none [] with cpc := CtrlPC.pauseCheck true }).cpc =
        CtrlPC.pauseCheck true ∨
      ({ Config.init [] 0 none [] with cpc := CtrlPC.pauseCheck true }).cpc =
        CtrlPC.pauseClear true) :=
  ⟨initial_state_paused.1 [1] 1 none [],
   initial_state_paused.2.1
     { Config.init [] 0 (some (SinkModel.appSink [])) [] with
       loops := [(0, ThreadState.running LoopPC.setRunning none none)] }
     (Choice.bg 0)
     { Config.init [] 0 (some (SinkModel.appSink [])) [] with
       paused := false,
       loops := [(0, ThreadState.running LoopPC.readThread none none)] }
     rfl rfl rfl,
   initial_state_paused.2.2.1
     { Config.init [] 0 none [] with cpc := CtrlPC.spawn }
     Choice.ctrl
     { Config.init [] 0 none [] with
       thread := some 0,
       loops := [(0, ThreadState.running LoopPC.checkSink none none)],
       nextId := 1, cpc := CtrlPC.idle }
     rfl (by decide),
   initial_state_paused.2.2.2
     { Config.init [] 0 none [] with cpc := CtrlPC.pauseCheck true }
     { Config.init [] 0 none [] with cpc := CtrlPC.spawn }
     rfl rfl⟩

end OhlcPipeline
